import Mathlib

/-!
Shallow embedding of the retrieval core of `student_email_chatbot.py`:
the text chunker, the chunk store (`VectorDatabase`), the similarity
search engine and the answer composer.  Strings are modelled as
`List Char` with Python slice/strip/find semantics made explicit;
similarity scores are modelled over `ℚ`; the external collaborators
(sentence-transformer `encode`, sklearn `cosine_similarity`, `md5`,
`datetime.now`, the OpenAI completion call) are parameters of the
definitions that use them.  The `while` loop of `_chunk_text` is
modelled with explicit fuel, so non-termination of the Python loop is
expressible as the fueled loop returning `none` for every fuel.
-/

/-- Python whitespace characters (`str.strip` / `\s`), ASCII range. -/
def isPyWs (c : Char) : Bool :=
  c == ' ' || c == '\t' || c == '\n' || c == '\r' || c == Char.ofNat 11 || c == Char.ofNat 12

/-- Python `str.strip()`: remove leading and trailing whitespace. -/
def pyStrip (s : List Char) : List Char :=
  ((s.dropWhile isPyWs).reverse.dropWhile isPyWs).reverse

/-- Helper for `collapseWs`: the flag records whether the previous
character was whitespace (so a run emits a single space). -/
def collapseWsAux : Bool → List Char → List Char
  | _, [] => []
  | prevWs, c :: rest =>
    if isPyWs c then
      if prevWs then collapseWsAux true rest
      else ' ' :: collapseWsAux true rest
    else c :: collapseWsAux false rest

/-- Python `re.sub(r'\s+', ' ', s)`: collapse whitespace runs to one space. -/
def collapseWs (s : List Char) : List Char := collapseWsAux false s

/-- ASCII `\w`: letters, digits, underscore. -/
def isWordChar (c : Char) : Bool := c.isAlphanum || c == '_'

/-- Characters kept by `re.sub(r'[^\w\s.,!?;:]', ' ', text)`. -/
def keepChar (c : Char) : Bool :=
  isWordChar c || isPyWs c || c == '.' || c == ',' || c == '!' || c == '?' || c == ';' || c == ':'

/-- `VectorDatabase._preprocess_text`: strip, collapse whitespace runs,
then replace every character outside `\w\s.,!?;:` by a space. -/
def preprocess_text (s : List Char) : List Char :=
  (collapseWs (pyStrip s)).map (fun c => if keepChar c then c else ' ')

/-- Python slice `s[a:b]` on a string of length `n`: negative indices
count from the end, then both bounds are clamped to `[0, n]`. -/
def pySlice (s : List Char) (a b : Int) : List Char :=
  let n : Int := s.length
  let a2 : Int := if a < 0 then max (n + a) 0 else min a n
  let b2 : Int := if b < 0 then max (n + b) 0 else min b n
  (s.take b2.toNat).drop a2.toNat

/-- Python `chunk.rfind(' ')`: index of the last space, `-1` if none. -/
def rfindSpace (s : List Char) : Int :=
  match (s.enum.filter (fun p => p.2 == ' ')).getLast? with
  | none => -1
  | some p => (p.1 : Int)

/-- The `while start < len(text)` loop of `VectorDatabase._chunk_text`,
with explicit fuel.  State: `start` (a Python int, may go negative) and
the accumulated chunk list.  Returns `none` when the fuel runs out
before the loop exits, `some acc` when the loop exits. -/
def chunkLoop (text : List Char) (chunk_size overlap : Int) :
    Nat → Int → List (List Char) → Option (List (List Char))
  | 0, _, _ => none
  | fuel + 1, start, acc =>
    if start < (text.length : Int) then
      let e0 : Int := start + chunk_size
      let c0 := pySlice text start e0
      let p :=
        if e0 < (text.length : Int) then
          let last_space := rfindSpace c0
          if chunk_size.fdiv 2 < last_space then (pySlice c0 0 last_space, start + last_space)
          else (c0, e0)
        else (c0, e0)
      let acc2 := acc ++ [pyStrip p.1]
      let start2 := p.2 - overlap
      if (text.length : Int) ≤ start2 then some acc2
      else chunkLoop text chunk_size overlap fuel start2 acc2
    else some acc

/-- `VectorDatabase._chunk_text`: run the window loop, then keep only
fragments whose stripped length exceeds 50 characters. -/
def chunk_text (text : List Char) (chunk_size overlap : Int) (fuel : Nat) :
    Option (List (List Char)) :=
  (chunkLoop text chunk_size overlap fuel 0 []).map
    (fun cs => cs.filter (fun c => decide (50 < (pyStrip c).length)))

/-- `DocumentChunk`: one indexed fragment with its metadata.  The
`metadata` dict of the source is flattened into its two entries
(`created_at`, `chunk_size`). -/
structure DocumentChunk where
  id : List Char
  content : List Char
  source_file : List Char
  chunk_index : Nat
  embedding : List ℚ
  created_at : List Char
  meta_chunk_size : Nat
deriving DecidableEq

/-- Placeholder chunk used to totalise Python's (invariant-guarded)
list indexing `self.chunks[idx]`. -/
def dfltChunk : DocumentChunk :=
  { id := [], content := [], source_file := [], chunk_index := 0,
    embedding := [], created_at := [], meta_chunk_size := 0 }

/-- `VectorDatabase` state: the chunk list, the derived embeddings
matrix (a row per chunk when rebuilt; `none` initially, mirroring the
Python `None`), and the embedding dimension of the attached
sentence-transformer model. -/
structure VectorDatabase where
  chunks : List DocumentChunk
  embeddings_matrix : Option (List (List ℚ))
  modelDim : Nat
deriving DecidableEq

/-- `VectorDatabase.__init__`: empty store for a model of the given
embedding dimension. -/
def initDB (modelDim : Nat) : VectorDatabase :=
  { chunks := [], embeddings_matrix := none, modelDim := modelDim }

/-- Rows of the derived matrix (`none` has no rows). -/
def matrixRows : Option (List (List ℚ)) → List (List ℚ)
  | none => []
  | some m => m

/-- `VectorDatabase._generate_chunk_id`: the f-string
`f"{source_file}_{index}_{content_hash}"`; `md5hex8` models
`hashlib.md5(content.encode()).hexdigest()[:8]`. -/
def generate_chunk_id (md5hex8 : List Char → List Char)
    (content source_file : List Char) (index : Nat) : List Char :=
  source_file ++ ('_' :: (toString index).data) ++ ('_' :: md5hex8 content)

/-- `VectorDatabase.add_document`, parameterised by the external
sentence-transformer batch `encode`, the `md5` hash and the clock.
Returns `none` when the chunking loop does not finish within `fuel`
(i.e. the Python call does not return). -/
def add_document (encode : List (List Char) → List (List ℚ))
    (md5hex8 : List Char → List Char) (now : List Char)
    (st : VectorDatabase) (content source_file : List Char)
    (chunk_size overlap : Int) (fuel : Nat) :
    Option (List (List Char) × VectorDatabase) :=
  let content2 := preprocess_text content
  match chunk_text content2 chunk_size overlap fuel with
  | none => none
  | some chunks =>
    let embeddings := encode chunks
    let newChunks := (chunks.zip embeddings).enum.map (fun p =>
      { id := generate_chunk_id md5hex8 p.2.1 source_file p.1
        content := p.2.1
        source_file := source_file
        chunk_index := p.1
        embedding := p.2.2
        created_at := now
        meta_chunk_size := p.2.1.length : DocumentChunk })
    let chunk_ids := newChunks.map (·.id)
    let allChunks := st.chunks ++ newChunks
    some (chunk_ids,
      { st with
        chunks := allChunks
        embeddings_matrix :=
          if allChunks.isEmpty then st.embeddings_matrix
          else some (allChunks.map (·.embedding)) })

/-- Ranking relation used to model `np.argsort` (ascending, stable):
order indices by score, breaking ties by index. -/
def rankRel (sims : List ℚ) (i j : Nat) : Prop :=
  sims.getD i 0 < sims.getD j 0 ∨ (sims.getD i 0 = sims.getD j 0 ∧ i ≤ j)

instance rankRelDec (sims : List ℚ) : DecidableRel (rankRel sims) := fun i j =>
  inferInstanceAs
    (Decidable (sims.getD i 0 < sims.getD j 0 ∨ (sims.getD i 0 = sims.getD j 0 ∧ i ≤ j)))

instance rankRelTotal (sims : List ℚ) : IsTotal Nat (rankRel sims) := by
  constructor
  intro i j
  rcases lt_trichotomy (sims.getD i 0) (sims.getD j 0) with h | h | h
  · exact Or.inl (Or.inl h)
  · rcases Nat.le_total i j with hij | hij
    · exact Or.inl (Or.inr ⟨h, hij⟩)
    · exact Or.inr (Or.inr ⟨h.symm, hij⟩)
  · exact Or.inr (Or.inl h)

instance rankRelTrans (sims : List ℚ) : IsTrans Nat (rankRel sims) := by
  constructor
  intro a b c hab hbc
  rcases hab with hab | ⟨hab, hab2⟩ <;> rcases hbc with hbc | ⟨hbc, hbc2⟩
  · exact Or.inl (hab.trans hbc)
  · exact Or.inl (hbc ▸ hab)
  · exact Or.inl (hab ▸ hbc)
  · exact Or.inr ⟨hab.trans hbc, hab2.trans hbc2⟩

/-- `np.argsort(sims)` (ascending, stable): sort the index range by
`rankRel`. -/
def argsort (sims : List ℚ) : List Nat :=
  List.insertionSort (rankRel sims) (List.range sims.length)

/-- `VectorDatabase.search_similar`, parameterised by `simFn`, which
models `cosine_similarity(model.encode([query]), matrix)[0]` — the
composite of the external encoder and sklearn's cosine kernel,
returning one score per matrix row. -/
def search_similar (st : VectorDatabase)
    (simFn : List Char → List (List ℚ) → List ℚ)
    (query : List Char) (top_k : Nat) (min_similarity : ℚ) :
    List (DocumentChunk × ℚ) :=
  match st.embeddings_matrix with
  | none => []
  | some matrix =>
    if st.chunks.isEmpty then []
    else
      let similarities := simFn query matrix
      let indices := ((argsort similarities).reverse).take top_k
      indices.filterMap (fun idx =>
        if min_similarity ≤ similarities.getD idx 0 then
          some (st.chunks.getD idx dfltChunk, similarities.getD idx 0)
        else none)

/-- The deserialised persistence artifact, as seen by `load_database`:
the file may be missing, the unpickling may fail, or it yields a dict
whose `'chunks'`, `'embeddings_matrix'` and `'model_name'` keys are
each present or absent (`data[k]` on an absent key raises `KeyError`,
which the surrounding `try` catches). -/
inductive LoadSource where
  | missing
  | corrupt
  | wellFormed (chunksVal : Option (List DocumentChunk))
      (matrixVal : Option (Option (List (List ℚ))))
      (modelNameVal : Option Nat)
deriving DecidableEq

/-- `VectorDatabase.save_database` (successful serialisation): the
pickled dict holds the chunk list, the matrix and the model's
embedding dimension (stored under `'model_name'` in the source). -/
def save_database (st : VectorDatabase) : LoadSource :=
  LoadSource.wellFormed (some st.chunks) (some st.embeddings_matrix) (some st.modelDim)

/-- `VectorDatabase.load_database`: returns the success flag and the
resulting state.  The two field assignments are sequential inside the
`try`, so a `KeyError` on `'embeddings_matrix'` happens after
`self.chunks` has already been overwritten. -/
def load_database (st : VectorDatabase) (src : LoadSource) : Bool × VectorDatabase :=
  match src with
  | LoadSource.missing => (false, st)
  | LoadSource.corrupt => (false, st)
  | LoadSource.wellFormed chunksVal matrixVal _ =>
    match chunksVal with
    | none => (false, st)
    | some cs =>
      match matrixVal with
      | none => (false, { st with chunks := cs })
      | some m => (true, { st with chunks := cs, embeddings_matrix := m })

/-- The record returned by `VectorDatabase.get_stats`. -/
structure DBStats where
  total_chunks : Nat
  total_documents : Nat
  embedding_dimension : Nat
  memory_usage_mb : ℚ
deriving DecidableEq

/-- Byte count of the derived matrix (`float32` entries, 4 bytes). -/
def matrixNbytes (m : List (List ℚ)) : ℚ :=
  4 * ((m.map List.length).sum : ℚ)

/-- `VectorDatabase.get_stats`. -/
def get_stats (st : VectorDatabase) : DBStats :=
  { total_chunks := st.chunks.length
    total_documents := ((st.chunks.map (·.source_file)).dedup).length
    embedding_dimension := st.modelDim
    memory_usage_mb :=
      match st.embeddings_matrix with
      | none => 0
      | some m => matrixNbytes m / (1024 * 1024) }

/-- Characters `re.split(r'[.!?]+', ...)` splits on. -/
def isSentPunct (c : Char) : Bool := c == '.' || c == '!' || c == '?'

mutual

/-- `re.split` on one-or-more of `p`: split at maximal delimiter runs,
keeping (possibly empty) parts at either end.  `cur` accumulates the
current part in reverse. -/
def splitRunsA (p : Char → Bool) : List Char → List Char → List (List Char)
  | [], cur => [cur.reverse]
  | c :: rest, cur =>
    if p c then cur.reverse :: splitRunsB p rest
    else splitRunsA p rest (c :: cur)

/-- State of `splitRunsA` inside a delimiter run: skip the rest of the
run, then start a fresh part. -/
def splitRunsB (p : Char → Bool) : List Char → List (List Char)
  | [] => [[]]
  | c :: rest => if p c then splitRunsB p rest else splitRunsA p rest [c]

end

/-- `re.split(r'[.!?]+', s)`. -/
def splitSentences (s : List Char) : List (List Char) :=
  splitRunsA isSentPunct s []

/-- Python substring test `w in s` (for `str`): `w` occurs contiguously
in `s`. -/
def containsSub (w s : List Char) : Bool :=
  (List.range (s.length + 1)).any (fun i => ((s.drop i).take w.length) == w)

/-- The question keywords of `_extract_question`. -/
def questionWords : List (List Char) :=
  ["how", "what", "when", "where", "why", "can", "could", "would"].map String.data

/-- The comprehension filter of `_extract_question`: `'?' in s or
any(word in s.lower() for word in [...])`. -/
def isQuestionSentence (s : List Char) : Bool :=
  s.contains '?' || questionWords.any (fun w => containsSub w (s.map Char.toLower))

/-- `StudentEmailChatbot._extract_question`. -/
def extract_question (email : List Char) : List Char :=
  let sentences := splitSentences email
  let questions := (sentences.filter isQuestionSentence).map pyStrip
  match questions with
  | q :: _ => q
  | [] =>
    let significant :=
      (sentences.filter (fun s => decide (20 < (pyStrip s).length))).map pyStrip
    match significant with
    | s :: _ => s
    | [] => pySlice email 0 200

/-- `StudentEmailChatbot._build_prompt` (the `question` argument is
unused in the source as well). -/
def build_prompt (email _question : List Char) (context_chunks : List (List Char)) : List Char :=
  let p1 := "Student Email:\n".data ++ email ++ "\n\n".data
  let p2 :=
    if context_chunks.isEmpty then p1
    else
      p1 ++ "Relevant Information from Documents:\n".data ++
        (context_chunks.enum.map (fun q =>
          (toString (q.1 + 1)).data ++ ". ".data ++ q.2 ++ "\n\n".data)).flatten
  p2 ++ "Please provide a helpful, professional response to this student email. ".data
    ++ "Use the relevant information provided above when applicable. ".data
    ++ "Be concise but thorough, and maintain a friendly, supportive tone.".data

/-- `StudentEmailChatbot._get_system_prompt` (contents abbreviated to
its first line; only its identity matters to the composer model). -/
def system_prompt : List Char :=
  "You are a helpful academic assistant responding to student emails.".data

/-- The fixed apologetic fallback returned when answer generation
fails. -/
def fallback_message : List Char :=
  ("I apologize, but I" ++ (Char.ofNat 39).toString ++ "m having trouble processing your request right now. "
    ++ "Please try again later or contact support directly.").data

/-- One entry of `self.conversation_history`. -/
structure HistoryEntry where
  timestamp : List Char
  email : List Char
  question : List Char
  answer : List Char
  context_used : Bool
deriving DecidableEq

/-- `StudentEmailChatbot.answer_email`: the whole body runs inside a
`try` whose `except` returns the fallback message; the external
completion call is the failing step, modelled as `complete` returning
`Except`.  Returns the answer and the updated conversation history. -/
def answer_email (simFn : List Char → List (List ℚ) → List ℚ)
    (complete : List Char → List Char → Except Unit (List Char))
    (now : List Char) (st : VectorDatabase) (history : List HistoryEntry)
    (email : List Char) (use_context : Bool) : List Char × List HistoryEntry :=
  let question := extract_question email
  let context_chunks :=
    if use_context && !question.isEmpty then
      (search_similar st simFn question 3 (mkRat 3 10)).map (fun p => p.1.content)
    else []
  let prompt := build_prompt email question context_chunks
  match complete system_prompt prompt with
  | Except.error _ => (fallback_message, history)
  | Except.ok content =>
    let answer := pyStrip content
    (answer, history ++
      [{ timestamp := now, email := email, question := question, answer := answer,
         context_used := !context_chunks.isEmpty }])

/-- Chunks for the spec's worked search example (three chunks scoring
0.9, 0.5, 0.2 against the query, `topK = 2`, `minSimilarity = 0.3`). -/
def w1chunk (i : Nat) : DocumentChunk :=
  { id := (toString i).data, content := (toString i).data, source_file := "f.txt".data,
    chunk_index := i, embedding := [(i : ℚ)], created_at := [], meta_chunk_size := 1 }

def w1db : VectorDatabase :=
  { chunks := [w1chunk 0, w1chunk 1, w1chunk 2],
    embeddings_matrix := some [[0], [1], [2]], modelDim := 1 }

def w1sim : List Char → List (List ℚ) → List ℚ := fun _ _ => [9 / 10, 1 / 2, 1 / 5]

def tieChunkA : DocumentChunk :=
  { id := "f.txt_0_aaaaaaaa".data, content := "first chunk".data,
    source_file := "f.txt".data, chunk_index := 0, embedding := [1],
    created_at := [], meta_chunk_size := 11 }

def tieChunkB : DocumentChunk :=
  { id := "f.txt_1_bbbbbbbb".data, content := "second chunk".data,
    source_file := "f.txt".data, chunk_index := 1, embedding := [1],
    created_at := [], meta_chunk_size := 12 }

/-- A store holding `tieChunkA` (inserted first) then `tieChunkB`. -/
def tieDB : VectorDatabase :=
  { chunks := [tieChunkA, tieChunkB], embeddings_matrix := some [[1], [1]],
    modelDim := 1 }

/-- Similarity model giving both stored chunks the same score (as the
cosine kernel does whenever two chunks have identical embeddings). -/
def tieSim : List Char → List (List ℚ) → List ℚ := fun _ _ => [1, 1]

/-- A text on which `_chunk_text` never terminates for the *valid*
parameters `chunkSize = 10`, `overlap = 6` (so `0 ≤ overlap <
chunkSize`): the word-boundary retraction moves `end` back to 6, and
`start = 6 - 6 = 0` forever. -/
def loopText : List Char := "abcdef ghijklmnop".data

def sixtyAs : List Char := List.replicate 60 'a'

/-- A text (20 characters, no spaces) on which `add_document` with the
malformed parameters `overlap = chunkSize = 10` loops forever:
`start = end - overlap` returns to 0 every iteration. -/
def noProgressText : List Char := List.replicate 20 'a'

/-- The example document of the spec scenario (67 characters). -/
def officeText : List Char :=
  "Office hours are Tuesdays and Thursdays from 2 to 4 PM in room 205.".data

/-- Concrete embedding provider: one 1-dimensional embedding per input. -/
def encode0 : List (List Char) → List (List ℚ) := fun ts => ts.map (fun _ => [1])

/-- Concrete stand-in for `md5(...).hexdigest()[:8]`. -/
def md50 : List Char → List Char := fun _ => "d41d8cd9".data

/-- Concrete timestamp. -/
def now0 : List Char := "2026-10-12T00:00:00".data

/-- Always-failing generation provider (network/quota error model). -/
def failingComplete : List Char → List Char → Except Unit (List Char) :=
  fun _ _ => Except.error ()

def w10src : List Char := "notes.txt".data

/-- The single chunk produced by adding `sixtyAs` to an empty store. -/
def w10chunk : DocumentChunk :=
  { id := generate_chunk_id md50 sixtyAs w10src 0, content := sixtyAs,
    source_file := w10src, chunk_index := 0, embedding := [1],
    created_at := now0, meta_chunk_size := 60 }

def w10db : VectorDatabase :=
  { chunks := [w10chunk], embeddings_matrix := some [[1]], modelDim := 384 }

theorem filterMap_ite_eq_map_filter {α β : Type} (p : β → Prop) [DecidablePred p]
    (g : β → α) (l : List β) :
    l.filterMap (fun a => if p a then some (g a) else none) =
      (l.filter (fun a => decide (p a))).map g := by
  induction l with
  | nil => rfl
  | cons a l ih =>
    by_cases h : p a <;> simp [List.filterMap_cons, List.filter_cons, h, ih]

theorem argsort_sorted (sims : List ℚ) :
    List.Sorted (rankRel sims) (argsort sims) :=
  List.sorted_insertionSort _ _

theorem argsort_nodup (sims : List ℚ) : (argsort sims).Nodup :=
  ((List.perm_insertionSort (rankRel sims) (List.range sims.length)).nodup_iff).mpr
    (List.nodup_range _)

theorem argsort_reverse_pairwise (sims : List ℚ) :
    ((argsort sims).reverse).Pairwise (fun i j => rankRel sims j i) :=
  List.pairwise_reverse.mpr (argsort_sorted sims)

theorem argsort_reverse_scores_antitone (sims : List ℚ) :
    ((argsort sims).reverse).Pairwise (fun i j => sims.getD j 0 ≤ sims.getD i 0) := by
  refine (argsort_reverse_pairwise sims).imp ?_
  intro i j h
  rcases h with h | ⟨h, _⟩
  · exact le_of_lt h
  · exact le_of_eq h

theorem argsort_reverse_ties_reversed (sims : List ℚ) :
    ((argsort sims).reverse).Pairwise
      (fun i j => sims.getD i 0 = sims.getD j 0 → j < i) := by
  have hne : ((argsort sims).reverse).Pairwise (fun i j => i ≠ j) :=
    List.nodup_reverse.mpr (argsort_nodup sims)
  refine ((argsort_reverse_pairwise sims).and hne).imp ?_
  intro i j h heq
  rcases h.1 with hlt | ⟨_, hle⟩
  · rw [heq] at hlt
    exact absurd hlt (lt_irrefl _)
  · exact lt_of_le_of_ne hle (Ne.symm h.2)

/-- Characterisation of `search_similar` in the non-trivial branch:
the result is the top-`k` descending index ranking, filtered by the
threshold, mapped to (chunk, score) pairs. -/
theorem search_similar_eq_map (st : VectorDatabase)
    (simFn : List Char → List (List ℚ) → List ℚ) (query : List Char)
    (top_k : Nat) (min_similarity : ℚ) (M : List (List ℚ))
    (hM : st.embeddings_matrix = some M) (hne : st.chunks.isEmpty = false) :
    search_similar st simFn query top_k min_similarity =
      ((((argsort (simFn query M)).reverse.take top_k).filter
          (fun idx => decide (min_similarity ≤ (simFn query M).getD idx 0))).map
        (fun idx => (st.chunks.getD idx dfltChunk, (simFn query M).getD idx 0))) := by
  rw [show (((argsort (simFn query M)).reverse.take top_k).filter
          (fun idx => decide (min_similarity ≤ (simFn query M).getD idx 0))).map
        (fun idx => (st.chunks.getD idx dfltChunk, (simFn query M).getD idx 0)) =
      ((argsort (simFn query M)).reverse.take top_k).filterMap
        (fun idx => if min_similarity ≤ (simFn query M).getD idx 0 then
          some (st.chunks.getD idx dfltChunk, (simFn query M).getD idx 0) else none) from
    (filterMap_ite_eq_map_filter _ _ _).symm]
  simp only [search_similar, hM, hne]
  rfl

/-- C1: for every store state, query, `topK > 0` and `minSimilarity`
in `[0,1]`, `search_similar` returns at most `topK` results, every
returned score is at least `minSimilarity`, and the scores are in
non-increasing order. -/
theorem search_similar_contract (st : VectorDatabase)
    (simFn : List Char → List (List ℚ) → List ℚ) (query : List Char)
    (top_k : Nat) (min_similarity : ℚ)
    (hk : 0 < top_k) (h0 : 0 ≤ min_similarity) (h1 : min_similarity ≤ 1) :
    (search_similar st simFn query top_k min_similarity).length ≤ top_k ∧
    (∀ p ∈ search_similar st simFn query top_k min_similarity, min_similarity ≤ p.2) ∧
    ((search_similar st simFn query top_k min_similarity).map Prod.snd).Pairwise
      (fun a b => b ≤ a) := by
  rcases hM : st.embeddings_matrix with _ | M
  · simp [search_similar, hM]
  · rcases hne : st.chunks.isEmpty with _ | _
    · rw [search_similar_eq_map st simFn query top_k min_similarity M hM hne]
      set sims := simFn query M with hsims
      refine ⟨?_, ?_, ?_⟩
      · calc ((((argsort sims).reverse.take top_k).filter
              (fun idx => decide (min_similarity ≤ sims.getD idx 0))).map
              (fun idx => (st.chunks.getD idx dfltChunk, sims.getD idx 0))).length
            = (((argsort sims).reverse.take top_k).filter
              (fun idx => decide (min_similarity ≤ sims.getD idx 0))).length :=
              List.length_map _ _
          _ ≤ ((argsort sims).reverse.take top_k).length :=
              List.length_filter_le _ _
          _ ≤ top_k := List.length_take_le _ _
      · intro p hp
        rw [List.mem_map] at hp
        obtain ⟨idx, hidx, rfl⟩ := hp
        rw [List.mem_filter] at hidx
        simpa using hidx.2
      · rw [List.map_map]
        rw [List.pairwise_map]
        have h2 : (((argsort sims).reverse.take top_k).filter
            (fun idx => decide (min_similarity ≤ sims.getD idx 0))).Pairwise
            (fun i j => sims.getD j 0 ≤ sims.getD i 0) := by
          refine List.Pairwise.sublist ?_ (argsort_reverse_scores_antitone sims)
          exact (List.filter_sublist _).trans (List.take_sublist _ _)
        exact h2.imp (fun h => h)
    · simp [search_similar, hM, hne]

theorem search_similar_contract_witness :
    (search_similar w1db w1sim "q".data 2 (3 / 10)).length ≤ 2 ∧
    (∀ p ∈ search_similar w1db w1sim "q".data 2 (3 / 10), (3 / 10 : ℚ) ≤ p.2) ∧
    ((search_similar w1db w1sim "q".data 2 (3 / 10)).map Prod.snd).Pairwise
      (fun a b => b ≤ a) :=
  search_similar_contract w1db w1sim "q".data 2 (3 / 10) (by decide) (by norm_num) (by norm_num)

/-- C2 (amended): the result of `search_similar` is the image of an
index ranking in which chunks with equal similarity scores appear in
*reverse* insertion order (the later-inserted chunk first), because
`np.argsort(similarities)[::-1]` reverses the ascending tie order. -/
theorem search_similar_ties_reverse_order (st : VectorDatabase)
    (simFn : List Char → List (List ℚ) → List ℚ) (query : List Char)
    (top_k : Nat) (min_similarity : ℚ) (M : List (List ℚ))
    (hM : st.embeddings_matrix = some M) :
    ∃ idxs : List Nat,
      search_similar st simFn query top_k min_similarity =
        idxs.map (fun idx => (st.chunks.getD idx dfltChunk, (simFn query M).getD idx 0)) ∧
      idxs.Pairwise
        (fun i j => (simFn query M).getD i 0 = (simFn query M).getD j 0 → j < i) := by
  rcases hne : st.chunks.isEmpty with _ | _
  · refine ⟨(((argsort (simFn query M)).reverse.take top_k).filter
        (fun idx => decide (min_similarity ≤ (simFn query M).getD idx 0))), ?_, ?_⟩
    · exact search_similar_eq_map st simFn query top_k min_similarity M hM hne
    · refine List.Pairwise.sublist ?_ (argsort_reverse_ties_reversed (simFn query M))
      exact (List.filter_sublist _).trans (List.take_sublist _ _)
  · refine ⟨[], ?_, List.Pairwise.nil⟩
    simp [search_similar, hM, hne]

/-- C2 counterexample: two chunks with equal scores come back in
*reverse* insertion order — the later-inserted `tieChunkB` first —
not in insertion order as claimed. -/
theorem search_similar_ties_counterexample :
    search_similar tieDB tieSim "query".data 5 (mkRat 3 10) =
      [(tieChunkB, 1), (tieChunkA, 1)] ∧
    search_similar tieDB tieSim "query".data 5 (mkRat 3 10) ≠
      [(tieChunkA, 1), (tieChunkB, 1)] := by
  constructor
  · decide
  · decide

/-- C2 witness for the amended theorem, at the tie store. -/
theorem search_similar_ties_reverse_order_witness :
    ∃ idxs : List Nat,
      search_similar tieDB tieSim "query".data 5 (mkRat 3 10) =
        idxs.map (fun idx => (tieDB.chunks.getD idx dfltChunk, (tieSim "query".data [[1], [1]]).getD idx 0)) ∧
      idxs.Pairwise
        (fun i j => (tieSim "query".data [[1], [1]]).getD i 0 = (tieSim "query".data [[1], [1]]).getD j 0 → j < i) :=
  search_similar_ties_reverse_order tieDB tieSim "query".data 5 (mkRat 3 10) [[1], [1]] rfl

theorem chunkLoop_loopText_step (fuel : Nat) (acc : List (List Char)) :
    chunkLoop loopText 10 6 (fuel + 1) 0 acc =
      chunkLoop loopText 10 6 fuel 0 (acc ++ ["abcdef".data]) := rfl

theorem chunkLoop_loopText_none :
    ∀ (fuel : Nat) (acc : List (List Char)), chunkLoop loopText 10 6 fuel 0 acc = none
  | 0, _ => rfl
  | fuel + 1, acc => by
    rw [chunkLoop_loopText_step]
    exact chunkLoop_loopText_none fuel _

/-- C3: the claim that `_chunk_text` terminates for every `chunkSize >
0`, `0 ≤ overlap < chunkSize` is refuted by the code: on `loopText`
with `chunkSize = 10`, `overlap = 6` the window loop is a fixed point
(`start` returns to 0 every iteration), so the fueled loop returns
`none` for every fuel — the Python loop never exits. -/
theorem chunk_text_nonterminating (fuel : Nat) :
    chunk_text loopText 10 6 fuel = none := by
  rw [chunk_text, chunkLoop_loopText_none fuel []]
  rfl

/-- C4: every fragment returned by a terminating run of `_chunk_text`
has trimmed length strictly greater than 50 characters. -/
theorem chunk_text_min_length (text : List Char) (chunk_size overlap : Int)
    (fuel : Nat) (res : List (List Char))
    (h : chunk_text text chunk_size overlap fuel = some res) :
    ∀ c ∈ res, 50 < (pyStrip c).length := by
  rw [chunk_text] at h
  rcases hl : chunkLoop text chunk_size overlap fuel 0 [] with _ | l
  · rw [hl] at h
    exact Option.noConfusion h
  · rw [hl] at h
    have h2 : l.filter (fun c => decide (50 < (pyStrip c).length)) = res :=
      Option.some.inj h
    subst h2
    intro c hc
    rw [List.mem_filter] at hc
    simpa using hc.2

/-- C4 witness: a 60-character fragment survives the filter and indeed
has trimmed length above 50. -/
theorem chunk_text_min_length_witness : 50 < (pyStrip sixtyAs).length :=
  chunk_text_min_length sixtyAs 512 50 1 [sixtyAs] (by decide) sixtyAs (by decide)

theorem preprocess_noProgressText : preprocess_text noProgressText = noProgressText := by decide

theorem chunkLoop_noProgress_step (fuel : Nat) (acc : List (List Char)) :
    chunkLoop noProgressText 10 10 (fuel + 1) 0 acc =
      chunkLoop noProgressText 10 10 fuel 0 (acc ++ [List.replicate 10 'a']) := rfl

theorem chunkLoop_noProgress_none :
    ∀ (fuel : Nat) (acc : List (List Char)), chunkLoop noProgressText 10 10 fuel 0 acc = none
  | 0, _ => rfl
  | fuel + 1, acc => by
    rw [chunkLoop_noProgress_step]
    exact chunkLoop_noProgress_none fuel _

/-- C6: `add_document` performs no validation of the chunking
parameters at all.  With `overlap = chunkSize = 10` the call is not
rejected with an input error: the chunking loop makes zero progress
and the call never returns (the fueled model yields `none` for every
fuel), for any store state and any embedding provider — so in
particular no eager `InputError` is ever raised. -/
theorem add_document_no_param_validation
    (encode : List (List Char) → List (List ℚ)) (md5hex8 : List Char → List Char)
    (now : List Char) (st : VectorDatabase) (source_file : List Char) (fuel : Nat) :
    add_document encode md5hex8 now st noProgressText source_file 10 10 fuel = none := by
  rw [add_document, preprocess_noProgressText, chunk_text,
    chunkLoop_noProgress_none fuel []]
  rfl

/-- C5 counterexample: adding the office-hours document to an empty
store with `chunkSize = 512`, `overlap = 50` returns ONE chunk id and
leaves `total_chunks = 1` — the 67-character fragment passes the
`> 50` filter, so it is not discarded and the claimed `(0, 0)` outcome
is wrong. -/
theorem add_document_office_counterexample :
    (add_document encode0 md50 now0 (initDB 384) officeText "syllabus.txt".data 512 50 10).map
        (fun p => (p.1.length, (get_stats p.2).total_chunks)) = some (1, 1) ∧
    (add_document encode0 md50 now0 (initDB 384) officeText "syllabus.txt".data 512 50 10).map
        (fun p => (p.1.length, (get_stats p.2).total_chunks)) ≠ some (0, 0) := by
  constructor
  · decide
  · decide

/-- C5 (amended): for any batch embedding provider (one vector per
fragment), adding the office-hours document to an empty store with
`chunkSize = 512`, `overlap = 50` returns exactly one chunk id and
leaves the store with exactly one chunk: its trimmed length is 67 > 50,
so the minimum-length filter keeps it. -/
theorem add_document_office_single (encode : List (List Char) → List (List ℚ))
    (md5hex8 : List Char → List Char) (now : List Char) (d : Nat)
    (source_file : List Char)
    (hlen : ∀ ts, (encode ts).length = ts.length) :
    (add_document encode md5hex8 now (initDB d) officeText source_file 512 50 10).map
        (fun p => (p.1.length, (get_stats p.2).total_chunks)) = some (1, 1) := by
  have hchunk : chunk_text (preprocess_text officeText) 512 50 10 = some [officeText] := by
    decide
  have hl1 : (encode [officeText]).length = 1 := by
    rw [hlen]
    rfl
  obtain ⟨e, he⟩ := List.length_eq_one.mp hl1
  simp only [add_document, hchunk, he, get_stats, initDB]
  rfl

/-- C5 witness for the amended theorem, at the concrete provider. -/
theorem add_document_office_single_witness :
    (add_document encode0 md50 now0 (initDB 384) officeText "doc2.txt".data 512 50 10).map
        (fun p => (p.1.length, (get_stats p.2).total_chunks)) = some (1, 1) :=
  add_document_office_single encode0 md50 now0 384 "doc2.txt".data
    (fun ts => by simp [encode0])

/-- C7 (amended): when `load_database` fails, the derived matrix is
always left untouched, and the whole state is left untouched *except*
in one case: the artifact deserialised to a dict that contains
`'chunks'` but not `'embeddings_matrix'`, in which case the chunk list
has already been overwritten when the `KeyError` fires. -/
theorem load_database_failure_frame (st : VectorDatabase) (src : LoadSource)
    (h : (load_database st src).1 = false) :
    (load_database st src).2.embeddings_matrix = st.embeddings_matrix ∧
    ((load_database st src).2 = st ∨
      ∃ cs mn, src = LoadSource.wellFormed (some cs) none mn ∧
        (load_database st src).2 = { st with chunks := cs }) := by
  rcases src with _ | _ | ⟨cv, mv, mn⟩
  · exact ⟨rfl, Or.inl rfl⟩
  · exact ⟨rfl, Or.inl rfl⟩
  · rcases cv with _ | cs
    · exact ⟨rfl, Or.inl rfl⟩
    · rcases mv with _ | m
      · exact ⟨rfl, Or.inr ⟨cs, mn, rfl, rfl⟩⟩
      · exact absurd h (by simp [load_database])

/-- C7 witness: a failing load from a missing file leaves the state
untouched. -/
theorem load_database_failure_frame_witness :
    (load_database (initDB 384) LoadSource.missing).2.embeddings_matrix =
      (initDB 384).embeddings_matrix ∧
    ((load_database (initDB 384) LoadSource.missing).2 = initDB 384 ∨
      ∃ cs mn, LoadSource.missing = LoadSource.wellFormed (some cs) none mn ∧
        (load_database (initDB 384) LoadSource.missing).2 =
          { initDB 384 with chunks := cs }) :=
  load_database_failure_frame (initDB 384) LoadSource.missing rfl

/-- C7 counterexample: a malformed artifact (a dict with `'chunks'`
but no `'embeddings_matrix'` key) makes `load_database` fail *after*
overwriting the chunk list, so the prior in-memory state is NOT left
untouched on this failure. -/
theorem load_database_partial_mutation_counterexample :
    (load_database { chunks := [dfltChunk], embeddings_matrix := none, modelDim := 1 }
        (LoadSource.wellFormed (some []) none none)).1 = false ∧
    (load_database { chunks := [dfltChunk], embeddings_matrix := none, modelDim := 1 }
        (LoadSource.wellFormed (some []) none none)).2 ≠
      { chunks := [dfltChunk], embeddings_matrix := none, modelDim := 1 } := by
  constructor
  · rfl
  · decide

/-- C8: saving a store and loading the artifact into a fresh
`VectorDatabase` (same model, hence same embedding dimension)
reproduces an identical chunk list and identical statistics. -/
theorem save_load_roundtrip (st : VectorDatabase) :
    (load_database (initDB st.modelDim) (save_database st)).1 = true ∧
    (load_database (initDB st.modelDim) (save_database st)).2.chunks = st.chunks ∧
    get_stats (load_database (initDB st.modelDim) (save_database st)).2 = get_stats st := by
  refine ⟨rfl, rfl, ?_⟩
  simp [load_database, save_database, get_stats, initDB]

/-- C9: whenever the external generation capability fails,
`answer_email` returns the fixed apologetic fallback string (and
leaves the conversation history unchanged) rather than propagating the
failure. -/
theorem answer_email_fallback (simFn : List Char → List (List ℚ) → List ℚ)
    (complete : List Char → List Char → Except Unit (List Char))
    (now : List Char) (st : VectorDatabase) (history : List HistoryEntry)
    (email : List Char) (use_context : Bool)
    (hfail : ∀ s u, ∃ e, complete s u = Except.error e) :
    answer_email simFn complete now st history email use_context =
      (fallback_message, history) := by
  simp only [answer_email]
  rcases hfail system_prompt
      (build_prompt email (extract_question email)
        (if use_context && !(extract_question email).isEmpty then
          (search_similar st simFn (extract_question email) 3 (mkRat 3 10)).map
            (fun p => p.1.content)
        else [])) with ⟨e, he⟩
  rw [he]

/-- C9 witness: a concrete email with a failing provider yields the
fallback message. -/
theorem answer_email_fallback_witness :
    answer_email w1sim failingComplete now0 w1db []
        "What are your office hours?".data true = (fallback_message, []) :=
  answer_email_fallback w1sim failingComplete now0 w1db []
    "What are your office hours?".data true (fun _ _ => ⟨(), rfl⟩)

/-- C10: a successful `add_document` call only appends: the prior
chunk records are unchanged and in their old positions, the new chunks
follow them in chunking order, the returned id list has exactly one id
per appended chunk in that order, and the rebuilt matrix has exactly
one row per stored chunk in insertion order (given that the store
satisfied the matrix-is-derived-from-chunks invariant before the
call). -/
theorem add_document_frame (encode : List (List Char) → List (List ℚ))
    (md5hex8 : List Char → List Char) (now : List Char)
    (st : VectorDatabase) (content source_file : List Char)
    (chunk_size overlap : Int) (fuel : Nat)
    (ids : List (List Char)) (st2 : VectorDatabase)
    (hinv : matrixRows st.embeddings_matrix = st.chunks.map (·.embedding))
    (h : add_document encode md5hex8 now st content source_file chunk_size overlap fuel =
      some (ids, st2)) :
    ∃ new : List DocumentChunk,
      st2.chunks = st.chunks ++ new ∧
      ids = new.map (·.id) ∧
      matrixRows st2.embeddings_matrix = st2.chunks.map (·.embedding) := by
  simp only [add_document] at h
  rcases hct : chunk_text (preprocess_text content) chunk_size overlap fuel with _ | chunks
  · rw [hct] at h
    exact Option.noConfusion h
  · rw [hct] at h
    have h2 := Option.some.inj h
    have hids := congrArg Prod.fst h2
    have hst := congrArg Prod.snd h2
    simp only at hids hst
    subst hids
    subst hst
    refine ⟨(chunks.zip (encode chunks)).enum.map (fun p =>
      { id := generate_chunk_id md5hex8 p.2.1 source_file p.1
        content := p.2.1
        source_file := source_file
        chunk_index := p.1
        embedding := p.2.2
        created_at := now
        meta_chunk_size := p.2.1.length : DocumentChunk }), rfl, rfl, ?_⟩
    by_cases hE : (st.chunks ++ (chunks.zip (encode chunks)).enum.map (fun p =>
      { id := generate_chunk_id md5hex8 p.2.1 source_file p.1
        content := p.2.1
        source_file := source_file
        chunk_index := p.1
        embedding := p.2.2
        created_at := now
        meta_chunk_size := p.2.1.length : DocumentChunk })).isEmpty
    · obtain ⟨hnil1, hnil2⟩ := List.append_eq_nil.mp (List.isEmpty_iff.mp hE)
      simp only [hE, if_true, hnil1, hnil2]
      simpa [hnil1] using hinv
    · rw [if_neg hE]
      rfl

/-- C10 witness: a concrete successful `add_document` call on an empty
store. -/
theorem add_document_frame_witness :
    ∃ new : List DocumentChunk,
      w10db.chunks = (initDB 384).chunks ++ new ∧
      [w10chunk.id] = new.map (·.id) ∧
      matrixRows w10db.embeddings_matrix = w10db.chunks.map (·.embedding) :=
  add_document_frame encode0 md50 now0 (initDB 384) sixtyAs w10src 512 50 1
    [w10chunk.id] w10db rfl (by decide)
